import Mathlib

/-!
Shallow embedding of `src/bin/tunnel.rs` (shadowsocks-rust tunnel binary):
the configuration-resolution and lifecycle-orchestration layer of the local
tunnel proxy.  The data model mirrors the library types used by the binary
(`Config`, `ServerConfig`, `Mode`, plugin specification); argument matching
mirrors the `clap` declarations of `main`; each `if let` / `if` merge block
of `main` becomes one step function, composed in source order; `.expect`
failures are modelled as `Except.error` carrying the panic message.
-/

namespace Tunnel

/-- Server address (host:port or domain:port), `shadowsocks::ServerAddr`.
Parsed by an external collaborator; carried opaquely here. -/
structure ServerAddr where
  repr : String
deriving DecidableEq, Repr

/-- Forward target address, `shadowsocks::relay::socks5::Address`. -/
structure Address where
  repr : String
deriving DecidableEq, Repr

/-- Cipher kind, `shadowsocks::crypto::CipherType`: an enumerated identifier
whose membership check is done by the external parser. -/
structure CipherType where
  name : String
deriving DecidableEq, Repr

/-- SIP003 plugin specification, `shadowsocks::plugin::PluginConfig`. -/
structure PluginConfig where
  plugin : String
  plugin_opt : Option String
deriving DecidableEq, Repr

/-- One upstream server entry, `shadowsocks::ServerConfig`
(the fields this binary constructs or reads). -/
structure ServerConfig where
  addr : ServerAddr
  password : String
  method : CipherType
  timeout : Option Nat
  plugin : Option PluginConfig
deriving DecidableEq, Repr

/-- `ServerConfig::new(addr, password, method, timeout, plugin)`. -/
def ServerConfig.new (addr : ServerAddr) (password : String) (method : CipherType)
    (timeout : Option Nat) (plugin : Option PluginConfig) : ServerConfig :=
  { addr := addr, password := password, method := method,
    timeout := timeout, plugin := plugin }

/-- `ServerConfig::set_plugin`. -/
def ServerConfig.set_plugin (sc : ServerConfig) (p : PluginConfig) : ServerConfig :=
  { sc with plugin := some p }

/-- Transport mode, `shadowsocks::Mode`. -/
inductive Mode where
  | TcpOnly
  | UdpOnly
  | TcpAndUdp
deriving DecidableEq, Repr

/-- `Mode::enable_tcp`: true for `TcpOnly` and `TcpAndUdp`. -/
def Mode.enable_tcp : Mode → Bool
  | .TcpOnly => true
  | .UdpOnly => false
  | .TcpAndUdp => true

/-- The authoritative runtime configuration, `shadowsocks::Config`
(the fields this binary reads or writes). -/
structure Config where
  server : List ServerConfig
  local_addr : Option ServerAddr
  forward : Option Address
  mode : Mode
  no_delay : Bool
  nofile : Option Nat
  ipv6_first : Bool
deriving DecidableEq, Repr

/-- The parsed command-line matches produced by `clap`.  Exactly the
arguments declared in `main` are stored: value-taking arguments `CONFIG`,
`LOCAL_ADDR`, `SERVER_ADDR`, `FORWARD_ADDR`, `PASSWORD`, `PLUGIN`,
`PLUGIN_OPT`, `URL`, `NOFILE`, and the flags `VERBOSE` (an occurrence
count), `UDP_ONLY`, `TCP_AND_UDP`, `NO_DELAY`, `LOG_WITHOUT_TIME`,
`IPV6_FIRST`.  No other argument is declared by the parser. -/
structure Matches where
  config : Option String
  local_addr : Option String
  server_addr : Option String
  forward_addr : Option String
  password : Option String
  plugin : Option String
  plugin_opt : Option String
  url : Option String
  nofile : Option String
  verbose : Nat
  udp_only : Bool
  tcp_and_udp : Bool
  no_delay : Bool
  log_without_time : Bool
  ipv6_first : Bool
deriving DecidableEq, Repr

/-- `ArgMatches::value_of`: the stored value of a declared value-taking
argument; `none` for any name the argument parser never declared (in
particular `"ENCRYPT_METHOD"`, which `main` reads but never declares). -/
def Matches.value_of (m : Matches) : String → Option String
  | "CONFIG" => m.config
  | "LOCAL_ADDR" => m.local_addr
  | "SERVER_ADDR" => m.server_addr
  | "FORWARD_ADDR" => m.forward_addr
  | "PASSWORD" => m.password
  | "PLUGIN" => m.plugin
  | "PLUGIN_OPT" => m.plugin_opt
  | "URL" => m.url
  | "NOFILE" => m.nofile
  | _ => none

/-- `ArgMatches::is_present` for the flag arguments `main` queries. -/
def Matches.is_present (m : Matches) : String → Bool
  | "UDP_ONLY" => m.udp_only
  | "TCP_AND_UDP" => m.tcp_and_udp
  | "NO_DELAY" => m.no_delay
  | "LOG_WITHOUT_TIME" => m.log_without_time
  | "IPV6_FIRST" => m.ipv6_first
  | _ => false

/-- External collaborators consumed by `main`: the source parsers
(`str::parse` on the respective library types), the config-file loader
`Config::load_from_file`, the default configuration
`Config::new(ConfigType::TunnelLocal)`, the usage text rendered by
`matches.usage()`, and `shadowsocks::VERSION`. -/
structure Env where
  parseServerAddr : String → Option ServerAddr
  parseCipher : String → Option CipherType
  parseAddress : String → Option Address
  parseServerUrl : String → Option ServerConfig
  parseU64 : String → Option Nat
  loadConfig : String → Except String Config
  newConfig : Config
  usage : String
  version : String

/-- Merge step for the discrete server flags (tunnel.rs lines 80-101):
on `SERVER_ADDR` being present, read `PASSWORD`, `ENCRYPT_METHOD` and the
address, construct a `ServerConfig`, attach the plugin when `PLUGIN` is
present, and push the entry; each `.expect` failure is a panic, modelled
as `Except.error` with the panic message. -/
def applyServerAddr (env : Env) (m : Matches) (c : Config) : Except String Config :=
  match m.value_of "SERVER_ADDR" with
  | none => .ok c
  | some svrAddrStr =>
    match m.value_of "PASSWORD" with
    | none => .error "password"
    | some password =>
      match m.value_of "ENCRYPT_METHOD" with
      | none => .error "encrypt-method"
      | some methodStr =>
        match env.parseCipher methodStr with
        | none => .error "encryption method"
        | some method =>
          match env.parseServerAddr svrAddrStr with
          | none => .error "server-addr"
          | some svr_addr =>
            let sc := ServerConfig.new svr_addr password method none none
            let sc :=
              match m.value_of "PLUGIN" with
              | some p =>
                sc.set_plugin { plugin := p, plugin_opt := m.value_of "PLUGIN_OPT" }
              | none => sc
            .ok { c with server := c.server ++ [sc] }

/-- Merge step for the SIP002 URL flag (tunnel.rs lines 103-106). -/
def applyUrl (env : Env) (m : Matches) (c : Config) : Except String Config :=
  match m.value_of "URL" with
  | none => .ok c
  | some url =>
    match env.parseServerUrl url with
    | none => .error "parse `url`"
    | some svr_addr => .ok { c with server := c.server ++ [svr_addr] }

/-- Merge step for the local bind address flag (tunnel.rs lines 108-111). -/
def applyLocalAddr (env : Env) (m : Matches) (c : Config) : Except String Config :=
  match m.value_of "LOCAL_ADDR" with
  | none => .ok c
  | some s =>
    match env.parseServerAddr s with
    | none => .error "local bind address"
    | some local_addr => .ok { c with local_addr := some local_addr }

/-- Merge step for the forward address flag (tunnel.rs lines 113-116). -/
def applyForwardAddr (env : Env) (m : Matches) (c : Config) : Except String Config :=
  match m.value_of "FORWARD_ADDR" with
  | none => .ok c
  | some s =>
    match env.parseAddress s with
    | none => .error "forward to address"
    | some forward_addr => .ok { c with forward := some forward_addr }

/-- Merge block for the `UDP_ONLY` flag (tunnel.rs lines 118-124): a
"UDP only" request escalates a TCP-capable mode to `TcpAndUdp` and
otherwise sets `UdpOnly`. -/
def applyUdpOnly (m : Matches) (c : Config) : Config :=
  if m.is_present "UDP_ONLY" then
    if c.mode.enable_tcp then { c with mode := Mode.TcpAndUdp }
    else { c with mode := Mode.UdpOnly }
  else c

/-- Merge block for the `TCP_AND_UDP` flag (tunnel.rs lines 126-128): a
"TCP and UDP" request unconditionally sets `TcpAndUdp`. -/
def applyTcpAndUdp (m : Matches) (c : Config) : Config :=
  if m.is_present "TCP_AND_UDP" then { c with mode := Mode.TcpAndUdp } else c

/-- Merge step for the mode flags (tunnel.rs lines 118-128), the two
blocks in source order. -/
def applyModeFlags (m : Matches) (c : Config) : Config :=
  applyTcpAndUdp m (applyUdpOnly m c)

/-- Merge step for the no-delay flag (tunnel.rs lines 130-132). -/
def applyNoDelay (m : Matches) (c : Config) : Config :=
  if m.is_present "NO_DELAY" then { c with no_delay := true } else c

/-- Merge step for the descriptor-limit flag (tunnel.rs lines 134-136);
a non-numeric value panics. -/
def applyNofile (env : Env) (m : Matches) (c : Config) : Except String Config :=
  match m.value_of "NOFILE" with
  | none => .ok c
  | some s =>
    match env.parseU64 s with
    | none => .error "an unsigned integer for `nofile`"
    | some n => .ok { c with nofile := some n }

/-- Merge step for the IPv6-first flag (tunnel.rs lines 138-140). -/
def applyIpv6First (m : Matches) (c : Config) : Config :=
  if m.is_present "IPV6_FIRST" then { c with ipv6_first := true } else c

/-- The Resolver stage of `main` (tunnel.rs lines 80-140): the merge
blocks applied to the base configuration in source order. -/
def resolveConfig (env : Env) (m : Matches) (c0 : Config) : Except String Config :=
  match applyServerAddr env m c0 with
  | .error e => .error e
  | .ok c1 =>
    match applyUrl env m c1 with
    | .error e => .error e
    | .ok c2 =>
      match applyLocalAddr env m c2 with
      | .error e => .error e
      | .ok c3 =>
        match applyForwardAddr env m c3 with
        | .error e => .error e
        | .ok c4 =>
          match applyNofile env m (applyNoDelay m (applyModeFlags m c4)) with
          | .error e => .error e
          | .ok c7 => .ok (applyIpv6First m c7)

/-- Which launch-readiness invariant the validation stage found violated. -/
inductive ValidationDiag where
  | missingLocalAddress
  | missingServers
deriving DecidableEq, Repr

/-- Diagnostic printed for a missing local address (tunnel.rs lines 145-148). -/
def missingLocalAddressMsg : String :=
  "missing `local_address`, consider specifying it by --local-addr command line option, or \"local_address\" and \"local_port\" in configuration file"

/-- Diagnostic printed for an empty server list (tunnel.rs lines 154-158). -/
def missingServersMsg : String :=
  "missing proxy servers, consider specifying it by --server-addr, --encrypt-method, --password command line option, or --server-url command line option, or configuration file, check more details in https://shadowsocks.org/en/config/quick-guide.html"

/-- The validation stage of `main` (tunnel.rs lines 144-162): check
`local_addr` presence first, then server-list non-emptiness; report the
first violation.  No other field is checked. -/
def validate (c : Config) : Option ValidationDiag :=
  if c.local_addr.isNone then some ValidationDiag.missingLocalAddress
  else if c.server.isEmpty then some ValidationDiag.missingServers
  else none

/-- An observable output of the startup path: a log-level error
(`error!`), a line on standard error (`eprintln!`), a line on standard
output (`println!`), or a log-level info line (`info!`). -/
inductive OutEvent where
  | logError (msg : String)
  | eprintln (msg : String)
  | println (msg : String)
  | logInfo (msg : String)
deriving DecidableEq, Repr

/-- Terminal outcome of the startup path of `main`: an early `return`
(normal exit before launch), a panic, or handing the validated
configuration to the lifecycle orchestrator. -/
inductive MainOutcome where
  | earlyReturn
  | panicked (msg : String)
  | launched (c : Config)
deriving DecidableEq, Repr

/-- Resolution, validation and launch decision of `main` given the base
configuration (tunnel.rs lines 80-177): resolve the merge blocks (a
`.expect` failure panics with nothing printed), run the validation
checks (a violation prints its diagnostic via `eprintln!` and the usage
summary via `println!`, then returns), and otherwise log the version and
launch. -/
def mainResolved (env : Env) (m : Matches) (cfg : Config) : List OutEvent × MainOutcome :=
  match resolveConfig env m cfg with
  | .error msg => ([], .panicked msg)
  | .ok c =>
    match validate c with
    | some .missingLocalAddress =>
      ([.eprintln missingLocalAddressMsg, .println env.usage], .earlyReturn)
    | some .missingServers =>
      ([.eprintln missingServersMsg, .println env.usage], .earlyReturn)
    | none =>
      ([.logInfo ("shadowsocks " ++ env.version)], .launched c)

/-- The startup path of `main` after argument parsing (tunnel.rs lines
69-177): load the base configuration from the config file when `CONFIG`
is present (a load error is logged with `error!` and the function
returns), else start from `Config::new(ConfigType::TunnelLocal)`; then
resolve, validate and decide the launch. -/
def mainTunnel (env : Env) (m : Matches) : List OutEvent × MainOutcome :=
  match m.value_of "CONFIG" with
  | some cpath =>
    match env.loadConfig cpath with
    | .error err => ([.logError err], .earlyReturn)
    | .ok cfg => mainResolved env m cfg
  | none => mainResolved env m env.newConfig

/-- Result of the tunnel server operation `run_local` when it resolves
(an `io::Result<()>`, the error rendered by `Display`). -/
inductive ServerResult where
  | ok
  | err (e : String)
deriving DecidableEq, Repr

/-- Outcome of `future::select(server, abort_signal)`: either the server
future resolved first with its result, or the abort-signal future
resolved first (the server future is then still unresolved and is
dropped unobserved). -/
inductive RaceWinner where
  | serverFirst (r : ServerResult)
  | signalFirst
deriving DecidableEq, Repr

/-- How the process terminates after the race. -/
inductive ProcessOutcome where
  | normalExit
  | panicExit (msg : String)
deriving DecidableEq, Repr

/-- The race-outcome match of `main` (tunnel.rs lines 182-189): server
resolving `Ok` panics with the internal-invariant diagnostic, server
resolving `Err` panics carrying the error, the abort signal resolving
exits normally. -/
def orchestrate : RaceWinner → ProcessOutcome
  | .serverFirst .ok => .panicExit "server exited unexpectly"
  | .serverFirst (.err e) => .panicExit ("server exited unexpectly with " ++ e)
  | .signalFirst => .normalExit

/-! Reduction lemmas for the argument lookups. -/

@[simp] lemma value_of_CONFIG (m : Matches) : m.value_of "CONFIG" = m.config := rfl

@[simp] lemma value_of_LOCAL_ADDR (m : Matches) : m.value_of "LOCAL_ADDR" = m.local_addr := rfl

@[simp] lemma value_of_SERVER_ADDR (m : Matches) : m.value_of "SERVER_ADDR" = m.server_addr := rfl

@[simp] lemma value_of_FORWARD_ADDR (m : Matches) : m.value_of "FORWARD_ADDR" = m.forward_addr := rfl

@[simp] lemma value_of_PASSWORD (m : Matches) : m.value_of "PASSWORD" = m.password := rfl

@[simp] lemma value_of_PLUGIN (m : Matches) : m.value_of "PLUGIN" = m.plugin := rfl

@[simp] lemma value_of_PLUGIN_OPT (m : Matches) : m.value_of "PLUGIN_OPT" = m.plugin_opt := rfl

@[simp] lemma value_of_URL (m : Matches) : m.value_of "URL" = m.url := rfl

@[simp] lemma value_of_NOFILE (m : Matches) : m.value_of "NOFILE" = m.nofile := rfl

@[simp] lemma value_of_ENCRYPT_METHOD (m : Matches) : m.value_of "ENCRYPT_METHOD" = none := rfl

@[simp] lemma is_present_UDP_ONLY (m : Matches) : m.is_present "UDP_ONLY" = m.udp_only := rfl

@[simp] lemma is_present_TCP_AND_UDP (m : Matches) : m.is_present "TCP_AND_UDP" = m.tcp_and_udp := rfl

@[simp] lemma is_present_NO_DELAY (m : Matches) : m.is_present "NO_DELAY" = m.no_delay := rfl

@[simp] lemma is_present_IPV6_FIRST (m : Matches) : m.is_present "IPV6_FIRST" = m.ipv6_first := rfl

/-! Shape lemmas for the individual merge steps. -/

lemma applyServerAddr_ok {env : Env} {m : Matches} {c c' : Config}
    (h : applyServerAddr env m c = .ok c') :
    (∃ t, c'.server = c.server ++ t) ∧ c'.local_addr = c.local_addr ∧
      c'.forward = c.forward ∧ c'.mode = c.mode ∧ c'.no_delay = c.no_delay ∧
      c'.nofile = c.nofile ∧ c'.ipv6_first = c.ipv6_first := by
  unfold applyServerAddr at h
  rw [value_of_SERVER_ADDR, value_of_PASSWORD, value_of_ENCRYPT_METHOD] at h
  cases hs : m.server_addr with
  | none =>
    rw [hs] at h
    cases h
    exact ⟨⟨[], by simp⟩, rfl, rfl, rfl, rfl, rfl, rfl⟩
  | some s =>
    rw [hs] at h
    cases hp : m.password with
    | none => rw [hp] at h; cases h
    | some pw => rw [hp] at h; cases h

lemma applyUrl_ok {env : Env} {m : Matches} {c c' : Config}
    (h : applyUrl env m c = .ok c') :
    (∃ t, c'.server = c.server ++ t) ∧ c'.local_addr = c.local_addr ∧
      c'.forward = c.forward ∧ c'.mode = c.mode ∧ c'.no_delay = c.no_delay ∧
      c'.nofile = c.nofile ∧ c'.ipv6_first = c.ipv6_first := by
  unfold applyUrl at h
  rw [value_of_URL] at h
  cases hu : m.url with
  | none =>
    rw [hu] at h
    cases h
    exact ⟨⟨[], by simp⟩, rfl, rfl, rfl, rfl, rfl, rfl⟩
  | some u =>
    simp only [hu] at h
    cases hp : env.parseServerUrl u with
    | none => simp only [hp] at h; cases h
    | some sv =>
      simp only [hp] at h
      cases h
      exact ⟨⟨[sv], rfl⟩, rfl, rfl, rfl, rfl, rfl, rfl⟩

lemma applyLocalAddr_ok {env : Env} {m : Matches} {c c' : Config}
    (h : applyLocalAddr env m c = .ok c') :
    c'.server = c.server ∧ c'.forward = c.forward ∧ c'.mode = c.mode ∧
      c'.no_delay = c.no_delay ∧ c'.nofile = c.nofile ∧
      c'.ipv6_first = c.ipv6_first ∧
      ((m.local_addr = none ∧ c'.local_addr = c.local_addr) ∨
        (∃ s b, m.local_addr = some s ∧ env.parseServerAddr s = some b ∧
          c'.local_addr = some b)) := by
  unfold applyLocalAddr at h
  rw [value_of_LOCAL_ADDR] at h
  cases hl : m.local_addr with
  | none =>
    rw [hl] at h
    cases h
    exact ⟨rfl, rfl, rfl, rfl, rfl, rfl, Or.inl ⟨rfl, rfl⟩⟩
  | some s =>
    simp only [hl] at h
    cases hp : env.parseServerAddr s with
    | none => simp only [hp] at h; cases h
    | some b =>
      simp only [hp] at h
      cases h
      exact ⟨rfl, rfl, rfl, rfl, rfl, rfl, Or.inr ⟨s, b, rfl, hp, rfl⟩⟩

lemma applyForwardAddr_ok {env : Env} {m : Matches} {c c' : Config}
    (h : applyForwardAddr env m c = .ok c') :
    c'.server = c.server ∧ c'.local_addr = c.local_addr ∧ c'.mode = c.mode ∧
      c'.no_delay = c.no_delay ∧ c'.nofile = c.nofile ∧
      c'.ipv6_first = c.ipv6_first ∧
      ((m.forward_addr = none ∧ c'.forward = c.forward) ∨
        (∃ s b, m.forward_addr = some s ∧ env.parseAddress s = some b ∧
          c'.forward = some b)) := by
  unfold applyForwardAddr at h
  rw [value_of_FORWARD_ADDR] at h
  cases hf : m.forward_addr with
  | none =>
    rw [hf] at h
    cases h
    exact ⟨rfl, rfl, rfl, rfl, rfl, rfl, Or.inl ⟨rfl, rfl⟩⟩
  | some s =>
    simp only [hf] at h
    cases hp : env.parseAddress s with
    | none => simp only [hp] at h; cases h
    | some b =>
      simp only [hp] at h
      cases h
      exact ⟨rfl, rfl, rfl, rfl, rfl, rfl, Or.inr ⟨s, b, rfl, hp, rfl⟩⟩

lemma applyUdpOnly_fields (m : Matches) (c : Config) :
    (applyUdpOnly m c).server = c.server ∧
      (applyUdpOnly m c).local_addr = c.local_addr ∧
      (applyUdpOnly m c).forward = c.forward ∧
      (applyUdpOnly m c).no_delay = c.no_delay ∧
      (applyUdpOnly m c).nofile = c.nofile ∧
      (applyUdpOnly m c).ipv6_first = c.ipv6_first := by
  unfold applyUdpOnly
  split
  · split <;> exact ⟨rfl, rfl, rfl, rfl, rfl, rfl⟩
  · exact ⟨rfl, rfl, rfl, rfl, rfl, rfl⟩

lemma applyTcpAndUdp_fields (m : Matches) (c : Config) :
    (applyTcpAndUdp m c).server = c.server ∧
      (applyTcpAndUdp m c).local_addr = c.local_addr ∧
      (applyTcpAndUdp m c).forward = c.forward ∧
      (applyTcpAndUdp m c).no_delay = c.no_delay ∧
      (applyTcpAndUdp m c).nofile = c.nofile ∧
      (applyTcpAndUdp m c).ipv6_first = c.ipv6_first := by
  unfold applyTcpAndUdp
  split <;> exact ⟨rfl, rfl, rfl, rfl, rfl, rfl⟩

lemma applyModeFlags_mode (m : Matches) (c : Config) :
    (applyModeFlags m c).mode =
      if m.tcp_and_udp then Mode.TcpAndUdp
      else if m.udp_only then
        (if c.mode.enable_tcp then Mode.TcpAndUdp else Mode.UdpOnly)
      else c.mode := by
  unfold applyModeFlags applyTcpAndUdp applyUdpOnly
  rw [is_present_TCP_AND_UDP, is_present_UDP_ONLY]
  by_cases ht : m.tcp_and_udp
  · simp [ht]
  · by_cases hu : m.udp_only
    · cases hcm : c.mode.enable_tcp <;> simp [ht, hu, hcm]
    · simp [ht, hu]

lemma applyNoDelay_fields (m : Matches) (c : Config) :
    (applyNoDelay m c).server = c.server ∧
      (applyNoDelay m c).local_addr = c.local_addr ∧
      (applyNoDelay m c).forward = c.forward ∧
      (applyNoDelay m c).mode = c.mode ∧
      (applyNoDelay m c).nofile = c.nofile ∧
      (applyNoDelay m c).ipv6_first = c.ipv6_first := by
  unfold applyNoDelay
  split <;> exact ⟨rfl, rfl, rfl, rfl, rfl, rfl⟩

lemma applyNoDelay_no_delay (m : Matches) (c : Config) :
    (applyNoDelay m c).no_delay = (if m.no_delay then true else c.no_delay) := by
  unfold applyNoDelay
  rw [is_present_NO_DELAY]
  split <;> simp_all

lemma applyNofile_ok {env : Env} {m : Matches} {c c' : Config}
    (h : applyNofile env m c = .ok c') :
    c'.server = c.server ∧ c'.local_addr = c.local_addr ∧
      c'.forward = c.forward ∧ c'.mode = c.mode ∧
      c'.no_delay = c.no_delay ∧ c'.ipv6_first = c.ipv6_first ∧
      ((m.nofile = none ∧ c'.nofile = c.nofile) ∨
        (∃ s n, m.nofile = some s ∧ env.parseU64 s = some n ∧
          c'.nofile = some n)) := by
  unfold applyNofile at h
  rw [value_of_NOFILE] at h
  cases hn : m.nofile with
  | none =>
    rw [hn] at h
    cases h
    exact ⟨rfl, rfl, rfl, rfl, rfl, rfl, Or.inl ⟨rfl, rfl⟩⟩
  | some s =>
    simp only [hn] at h
    cases hp : env.parseU64 s with
    | none => simp only [hp] at h; cases h
    | some n =>
      simp only [hp] at h
      cases h
      exact ⟨rfl, rfl, rfl, rfl, rfl, rfl, Or.inr ⟨s, n, rfl, hp, rfl⟩⟩

lemma applyIpv6First_fields (m : Matches) (c : Config) :
    (applyIpv6First m c).server = c.server ∧
      (applyIpv6First m c).local_addr = c.local_addr ∧
      (applyIpv6First m c).forward = c.forward ∧
      (applyIpv6First m c).mode = c.mode ∧
      (applyIpv6First m c).no_delay = c.no_delay ∧
      (applyIpv6First m c).nofile = c.nofile := by
  unfold applyIpv6First
  split <;> exact ⟨rfl, rfl, rfl, rfl, rfl, rfl⟩

lemma applyIpv6First_ipv6 (m : Matches) (c : Config) :
    (applyIpv6First m c).ipv6_first = (if m.ipv6_first then true else c.ipv6_first) := by
  unfold applyIpv6First
  rw [is_present_IPV6_FIRST]
  split <;> simp_all

lemma resolveConfig_ok {env : Env} {m : Matches} {c0 c' : Config}
    (h : resolveConfig env m c0 = .ok c') :
    ∃ c1 c2 c3 c4 c7,
      applyServerAddr env m c0 = .ok c1 ∧
      applyUrl env m c1 = .ok c2 ∧
      applyLocalAddr env m c2 = .ok c3 ∧
      applyForwardAddr env m c3 = .ok c4 ∧
      applyNofile env m (applyNoDelay m (applyModeFlags m c4)) = .ok c7 ∧
      c' = applyIpv6First m c7 := by
  unfold resolveConfig at h
  cases h1 : applyServerAddr env m c0 with
  | error e => rw [h1] at h; cases h
  | ok c1 =>
    simp only [h1] at h
    cases h2 : applyUrl env m c1 with
    | error e => simp only [h2] at h; cases h
    | ok c2 =>
      simp only [h2] at h
      cases h3 : applyLocalAddr env m c2 with
      | error e => simp only [h3] at h; cases h
      | ok c3 =>
        simp only [h3] at h
        cases h4 : applyForwardAddr env m c3 with
        | error e => simp only [h4] at h; cases h
        | ok c4 =>
          simp only [h4] at h
          cases h7 : applyNofile env m (applyNoDelay m (applyModeFlags m c4)) with
          | error e => simp only [h7] at h; cases h
          | ok c7 =>
            simp only [h7] at h
            cases h
            exact ⟨c1, c2, c3, c4, c7, rfl, h2, h3, h4, h7, rfl⟩

lemma applyModeFlags_fields (m : Matches) (c : Config) :
    (applyModeFlags m c).server = c.server ∧
      (applyModeFlags m c).local_addr = c.local_addr ∧
      (applyModeFlags m c).forward = c.forward ∧
      (applyModeFlags m c).no_delay = c.no_delay ∧
      (applyModeFlags m c).nofile = c.nofile ∧
      (applyModeFlags m c).ipv6_first = c.ipv6_first := by
  have hu := applyUdpOnly_fields m c
  have ht := applyTcpAndUdp_fields m (applyUdpOnly m c)
  unfold applyModeFlags
  exact ⟨ht.1.trans hu.1, ht.2.1.trans hu.2.1, ht.2.2.1.trans hu.2.2.1,
    ht.2.2.2.1.trans hu.2.2.2.1, ht.2.2.2.2.1.trans hu.2.2.2.2.1,
    ht.2.2.2.2.2.trans hu.2.2.2.2.2⟩

/-- Field-level description of a successful resolution: servers are only
appended to; the bind address, forward target and descriptor limit are
either kept (flag absent) or set to the parsed flag value; the mode
follows the escalation rule; the booleans are set-if-present. -/
lemma resolveConfig_fields {env : Env} {m : Matches} {c0 c' : Config}
    (h : resolveConfig env m c0 = .ok c') :
    (∃ t, c'.server = c0.server ++ t) ∧
      ((m.local_addr = none ∧ c'.local_addr = c0.local_addr) ∨
        (∃ s b, m.local_addr = some s ∧ env.parseServerAddr s = some b ∧
          c'.local_addr = some b)) ∧
      ((m.forward_addr = none ∧ c'.forward = c0.forward) ∨
        (∃ s b, m.forward_addr = some s ∧ env.parseAddress s = some b ∧
          c'.forward = some b)) ∧
      c'.mode = (if m.tcp_and_udp then Mode.TcpAndUdp
        else if m.udp_only then
          (if c0.mode.enable_tcp then Mode.TcpAndUdp else Mode.UdpOnly)
        else c0.mode) ∧
      c'.no_delay = (if m.no_delay then true else c0.no_delay) ∧
      ((m.nofile = none ∧ c'.nofile = c0.nofile) ∨
        (∃ s n, m.nofile = some s ∧ env.parseU64 s = some n ∧
          c'.nofile = some n)) ∧
      c'.ipv6_first = (if m.ipv6_first then true else c0.ipv6_first) := by
  obtain ⟨c1, c2, c3, c4, c7, h1, h2, h3, h4, h7, hfin⟩ := resolveConfig_ok h
  obtain ⟨⟨t1, hs1⟩, hl1, hf1, hm1, hd1, hn1, hi1⟩ := applyServerAddr_ok h1
  obtain ⟨⟨t2, hs2⟩, hl2, hf2, hm2, hd2, hn2, hi2⟩ := applyUrl_ok h2
  obtain ⟨hs3, hf3, hm3, hd3, hn3, hi3, hL3⟩ := applyLocalAddr_ok h3
  obtain ⟨hs4, hl4, hm4, hd4, hn4, hi4, hF4⟩ := applyForwardAddr_ok h4
  obtain ⟨hs5, hl5, hf5, hd5, hn5, hi5⟩ := applyModeFlags_fields m c4
  have hm5 := applyModeFlags_mode m c4
  obtain ⟨hs6, hl6, hf6, hm6, hn6, hi6⟩ := applyNoDelay_fields m (applyModeFlags m c4)
  have hd6 := applyNoDelay_no_delay m (applyModeFlags m c4)
  obtain ⟨hs7, hl7, hf7, hm7, hd7, hi7, hN7⟩ := applyNofile_ok h7
  obtain ⟨hs8, hl8, hf8, hm8, hd8, hn8⟩ := applyIpv6First_fields m c7
  have hi8 := applyIpv6First_ipv6 m c7
  subst hfin
  refine ⟨?_, ?_, ?_, ?_, ?_, ?_, ?_⟩
  · refine ⟨t1 ++ t2, ?_⟩
    rw [hs8, hs7, hs6, hs5, hs4, hs3, hs2, hs1, List.append_assoc]
  · have hc2 : c2.local_addr = c0.local_addr := by rw [hl2, hl1]
    have hup : (applyIpv6First m c7).local_addr = c3.local_addr := by
      rw [hl8, hl7, hl6, hl5, hl4]
    rcases hL3 with ⟨hnone, heq⟩ | ⟨s, b, hsome, hp, heq⟩
    · exact Or.inl ⟨hnone, by rw [hup, heq, hc2]⟩
    · exact Or.inr ⟨s, b, hsome, hp, by rw [hup, heq]⟩
  · have hc3 : c3.forward = c0.forward := by rw [hf3, hf2, hf1]
    have hup : (applyIpv6First m c7).forward = c4.forward := by
      rw [hf8, hf7, hf6, hf5]
    rcases hF4 with ⟨hnone, heq⟩ | ⟨s, b, hsome, hp, heq⟩
    · exact Or.inl ⟨hnone, by rw [hup, heq, hc3]⟩
    · exact Or.inr ⟨s, b, hsome, hp, by rw [hup, heq]⟩
  · have hc4 : c4.mode = c0.mode := by rw [hm4, hm3, hm2, hm1]
    rw [hm8, hm7, hm6, hm5, hc4]
  · have hc4 : c4.no_delay = c0.no_delay := by rw [hd4, hd3, hd2, hd1]
    rw [hd8, hd7, hd6, hd5, hc4]
  · have hcD : (applyNoDelay m (applyModeFlags m c4)).nofile = c0.nofile := by
      rw [hn6, hn5, hn4, hn3, hn2, hn1]
    rcases hN7 with ⟨hnone, heq⟩ | ⟨s, n, hsome, hp, heq⟩
    · exact Or.inl ⟨hnone, by rw [hn8, heq, hcD]⟩
    · exact Or.inr ⟨s, n, hsome, hp, by rw [hn8, heq]⟩
  · have hc7 : c7.ipv6_first = c0.ipv6_first := by
      rw [hi7, hi6, hi5, hi4, hi3, hi2, hi1]
    rw [hi8, hc7]

/-! Concrete fixtures used to exercise the definitions. -/

/-- A concrete environment: each parser wraps its input, the SIP002
decoder produces an entry at the given address, the descriptor-limit
parser accepts exactly `"1024"`, and loading the config file fails with
`"boom"`. -/
def envW : Env :=
  { parseServerAddr := fun s => some ⟨s⟩
    parseCipher := fun s => some ⟨s⟩
    parseAddress := fun s => some ⟨s⟩
    parseServerUrl := fun s => some (ServerConfig.new ⟨s⟩ "" ⟨""⟩ none none)
    parseU64 := fun s => if s = "1024" then some 1024 else none
    loadConfig := fun _ => .error "boom"
    newConfig :=
      { server := [], local_addr := none, forward := none, mode := Mode.TcpOnly,
        no_delay := false, nofile := none, ipv6_first := false }
    usage := "USAGE"
    version := "1.8.23" }

/-- Matches with no argument supplied. -/
def emptyMatches : Matches :=
  { config := none, local_addr := none, server_addr := none, forward_addr := none,
    password := none, plugin := none, plugin_opt := none, url := none, nofile := none,
    verbose := 0, udp_only := false, tcp_and_udp := false, no_delay := false,
    log_without_time := false, ipv6_first := false }

/-- A base configuration with every optional field populated. -/
def baseFull : Config :=
  { server := [ServerConfig.new ⟨"9.9.9.9:8388"⟩ "pw0" ⟨"aes-256-gcm"⟩ none none],
    local_addr := some ⟨"0.0.0.0:9"⟩, forward := some ⟨"old.example:1"⟩,
    mode := Mode.TcpOnly, no_delay := false, nofile := some 7, ipv6_first := false }

/-- Matches supplying the no-delay flag, the IPv6-first flag and
descriptor limit `1024`. -/
def mScalars : Matches :=
  { emptyMatches with no_delay := true, ipv6_first := true, nofile := some "1024" }

/-- The configuration resolved from `mScalars` on the default base. -/
def cfgScalars : Config :=
  { server := [], local_addr := none, forward := none, mode := Mode.TcpOnly,
    no_delay := true, nofile := some 1024, ipv6_first := true }

/-- A merged configuration whose only omission is the forward target. -/
def cfgNoForward : Config :=
  { server := [ServerConfig.new ⟨"1.2.3.4:8388"⟩ "secret" ⟨"aes-256-gcm"⟩ none none],
    local_addr := some ⟨"127.0.0.1:1080"⟩, forward := none, mode := Mode.TcpOnly,
    no_delay := false, nofile := none, ipv6_first := false }

/-! Behaviour of the validation stage. -/

lemma validate_none_local {c : Config} (h : c.local_addr = none) :
    validate c = some ValidationDiag.missingLocalAddress := by
  unfold validate
  rw [h]
  rfl

lemma validate_empty_server {c : Config} (h1 : c.local_addr ≠ none)
    (h2 : c.server = []) : validate c = some ValidationDiag.missingServers := by
  obtain ⟨a, ha⟩ := Option.ne_none_iff_exists'.mp h1
  unfold validate
  rw [ha, h2]
  rfl

lemma validate_accepts {c : Config} (h1 : c.local_addr ≠ none)
    (h2 : c.server ≠ []) : validate c = none := by
  obtain ⟨a, ha⟩ := Option.ne_none_iff_exists'.mp h1
  cases hs : c.server with
  | nil => exact absurd hs h2
  | cons x xs =>
    unfold validate
    rw [ha, hs]
    rfl

lemma resolveConfig_error {env : Env} {m : Matches} {c0 : Config} {e : String}
    (h : applyServerAddr env m c0 = .error e) :
    resolveConfig env m c0 = .error e := by
  unfold resolveConfig
  rw [h]

/-! The claims. -/

/-- C1: the spec says a discrete server-address flag (with its password
and cipher, per the interface contract) yields a `ServerConfig` built
from those flags, appended to `servers`.  The code instead panics before
any entry is constructed: it reads the undeclared `ENCRYPT_METHOD`
argument and `.expect` fails.  This theorem evaluates the startup path at
the failing input `-s 1.2.3.4:8388 -k secret -f example.com:80`:
nothing is appended, the process panics with `encrypt-method`. -/
theorem c1_discrete_server_panics :
    mainTunnel envW
      { emptyMatches with
        server_addr := some "1.2.3.4:8388"
        password := some "secret"
        forward_addr := some "example.com:80" } =
      ([], MainOutcome.panicked "encrypt-method") := rfl

/-- C2 counterexample: a merged configuration missing only the forward
target is not rejected by the validation stage; it passes `validate` and
is launched, so the claim that validation rejects every configuration
missing any of bind address, servers, forward target is false. -/
theorem c2_forward_missing_not_rejected :
    cfgNoForward.forward = none ∧ validate cfgNoForward = none ∧
    mainResolved envW emptyMatches cfgNoForward =
      ([OutEvent.logInfo "shadowsocks 1.8.23"], MainOutcome.launched cfgNoForward) :=
  ⟨rfl, rfl, rfl⟩

/-- C2 (amended): the validation stage checks bind-address presence
before server-list non-emptiness and rejects with a diagnostic naming
the first missing of those two invariants; forward-target presence is
not checked at this stage, so a configuration with bind address and a
non-empty server list passes validation regardless of its forward
target. -/
theorem c2_validation_order (c : Config) :
    (c.local_addr = none → validate c = some ValidationDiag.missingLocalAddress) ∧
    (c.local_addr ≠ none → c.server = [] →
      validate c = some ValidationDiag.missingServers) ∧
    (c.local_addr ≠ none → c.server ≠ [] → validate c = none) :=
  ⟨fun h => validate_none_local h,
   fun h1 h2 => validate_empty_server h1 h2,
   fun h1 h2 => validate_accepts h1 h2⟩

/-- C2 witness: the three validation outcomes at concrete configurations,
obtained from `c2_validation_order`. -/
theorem c2_validation_order_witness :
    validate { cfgNoForward with local_addr := none } =
      some ValidationDiag.missingLocalAddress ∧
    validate { cfgNoForward with server := [] } =
      some ValidationDiag.missingServers ∧
    validate cfgNoForward = none :=
  ⟨(c2_validation_order _).1 rfl,
   (c2_validation_order _).2.1 (by decide) rfl,
   (c2_validation_order cfgNoForward).2.2 (by decide) (by decide)⟩

/-- C4: the race-outcome mapping of the orchestrator.  The abort signal
resolving first exits normally (the unresolved server future is dropped
unobserved — `RaceWinner.signalFirst` carries no server result); the
server resolving first with an error panics carrying that error; the
server resolving first successfully panics with the distinct
internal-invariant diagnostic, different from every error-path message
and from normal exit. -/
theorem c4_race_outcome :
    orchestrate RaceWinner.signalFirst = ProcessOutcome.normalExit ∧
    (∀ e, orchestrate (RaceWinner.serverFirst (ServerResult.err e)) =
      ProcessOutcome.panicExit ("server exited unexpectly with " ++ e)) ∧
    orchestrate (RaceWinner.serverFirst ServerResult.ok) =
      ProcessOutcome.panicExit "server exited unexpectly" ∧
    (∀ e, ProcessOutcome.panicExit ("server exited unexpectly with " ++ e) ≠
      ProcessOutcome.panicExit "server exited unexpectly") ∧
    (∀ e, ProcessOutcome.panicExit ("server exited unexpectly with " ++ e) ≠
      ProcessOutcome.normalExit) := by
  refine ⟨rfl, fun e => rfl, rfl, ?_, ?_⟩
  · intro e h
    injection h with h3
    have h2 := congrArg String.length h3
    rw [String.length_append] at h2
    have l1 : ("server exited unexpectly with ").length = 30 := rfl
    have l2 : ("server exited unexpectly" : String).length = 24 := rfl
    rw [l1, l2] at h2
    omega
  · intro e h
    exact ProcessOutcome.noConfusion h

/-- C4 witness: the mapping and the diagnostic distinction at the
concrete server error `"bind error"`. -/
theorem c4_race_outcome_witness :
    orchestrate (RaceWinner.serverFirst (ServerResult.err "bind error")) =
      ProcessOutcome.panicExit "server exited unexpectly with bind error" ∧
    ProcessOutcome.panicExit "server exited unexpectly with bind error" ≠
      ProcessOutcome.panicExit "server exited unexpectly" :=
  ⟨c4_race_outcome.2.1 "bind error", c4_race_outcome.2.2.2.1 "bind error"⟩

/-- C5: the spec says supplying both a discrete server entry and a URL
entry yields a `servers` sequence containing both, discrete first.  The
code instead panics while handling the discrete entry (undeclared
`ENCRYPT_METHOD`), before either entry is appended.  This theorem
evaluates the startup path at the failing input supplying both
sources. -/
theorem c5_both_sources_panic :
    mainTunnel envW
      { emptyMatches with
        server_addr := some "1.2.3.4:8388"
        password := some "secret"
        url := some "ss://YWVzLTI1Ni1nY206c2VjcmV0@3.3.3.3:8388"
        local_addr := some "127.0.0.1:1080"
        forward_addr := some "example.com:80" } =
      ([], MainOutcome.panicked "encrypt-method") := rfl

/-- C10: the argument parser never declares `ENCRYPT_METHOD`, so its
lookup yields no value for every possible `Matches`; consequently, for
every invocation with the discrete server-address flag present,
resolution aborts by panic before a server entry is constructed — with
panic message `encrypt-method` whenever the (clap-required) password is
present, and in any case with some panic. -/
theorem c10_encrypt_method_never_declared :
    (∀ m : Matches, m.value_of "ENCRYPT_METHOD" = none) ∧
    (∀ (env : Env) (m : Matches) (c0 : Config) (s pw : String),
      m.server_addr = some s → m.password = some pw →
      resolveConfig env m c0 = .error "encrypt-method") ∧
    (∀ (env : Env) (m : Matches) (c0 : Config) (s : String),
      m.server_addr = some s → ∃ e, resolveConfig env m c0 = .error e) := by
  have h2 : ∀ (env : Env) (m : Matches) (c0 : Config) (s pw : String),
      m.server_addr = some s → m.password = some pw →
      resolveConfig env m c0 = .error "encrypt-method" := by
    intro env m c0 s pw hs hp
    refine resolveConfig_error ?_
    unfold applyServerAddr
    rw [value_of_SERVER_ADDR, value_of_PASSWORD, value_of_ENCRYPT_METHOD, hs, hp]
  refine ⟨fun m => rfl, h2, ?_⟩
  intro env m c0 s hs
  cases hp : m.password with
  | some pw => exact ⟨"encrypt-method", h2 env m c0 s pw hs hp⟩
  | none =>
    refine ⟨"password", resolveConfig_error ?_⟩
    unfold applyServerAddr
    rw [value_of_SERVER_ADDR, value_of_PASSWORD, hs, hp]

/-- C10 witness: the discrete-server path panics with `encrypt-method`
at the concrete invocation `-s 1.2.3.4:8388 -k secret`, obtained from
`c10_encrypt_method_never_declared`. -/
theorem c10_witness :
    resolveConfig envW
      { emptyMatches with server_addr := some "1.2.3.4:8388", password := some "secret" }
      envW.newConfig = .error "encrypt-method" :=
  c10_encrypt_method_never_declared.2.1 envW
    { emptyMatches with server_addr := some "1.2.3.4:8388", password := some "secret" }
    envW.newConfig "1.2.3.4:8388" "secret" rfl rfl

/-- C3: mode resolution escalates and never shrinks.  Under a successful
resolution: a "UDP only" request on a TCP-capable base yields
`TcpAndUdp`; a "UDP only" request (alone — `clap` forbids combining it
with the "TCP and UDP" flag) on a base that does not enable TCP yields
`UdpOnly`; a "TCP and UDP" request yields `TcpAndUdp` for every base. -/
theorem c3_mode_escalation (env : Env) (m : Matches) (c0 c' : Config)
    (h : resolveConfig env m c0 = .ok c') :
    (m.udp_only = true → c0.mode.enable_tcp = true → c'.mode = Mode.TcpAndUdp) ∧
    (m.udp_only = true → m.tcp_and_udp = false → c0.mode.enable_tcp = false →
      c'.mode = Mode.UdpOnly) ∧
    (m.tcp_and_udp = true → c'.mode = Mode.TcpAndUdp) := by
  have hm := (resolveConfig_fields h).2.2.2.1
  refine ⟨?_, ?_, ?_⟩
  · intro hu htcp
    by_cases ht : m.tcp_and_udp
    · rw [hm]
      simp [ht]
    · rw [hm]
      simp [ht, hu, htcp]
  · intro hu ht htcp
    rw [hm]
    simp [ht, hu, htcp]
  · intro ht
    rw [hm]
    simp [ht]

/-- C3 witness: a "UDP only" request on the TCP-capable default base
resolves to `TcpAndUdp`, obtained from `c3_mode_escalation`. -/
theorem c3_mode_escalation_witness :
    resolveConfig envW { emptyMatches with udp_only := true } envW.newConfig =
      .ok { envW.newConfig with mode := Mode.TcpAndUdp } ∧
    ({ envW.newConfig with mode := Mode.TcpAndUdp } : Config).mode = Mode.TcpAndUdp :=
  ⟨rfl,
   (c3_mode_escalation envW { emptyMatches with udp_only := true } envW.newConfig
      { envW.newConfig with mode := Mode.TcpAndUdp } rfl).1 rfl rfl⟩

/-- C6: bind-address precedence.  Under a successful resolution, a
discrete bind-address override parsed to `b` makes `local_addr = some b`
for every base value; with no override the base value is kept. -/
theorem c6_local_addr_precedence (env : Env) (m : Matches) (c0 c' : Config)
    (h : resolveConfig env m c0 = .ok c') :
    (m.local_addr = none → c'.local_addr = c0.local_addr) ∧
    (∀ s b, m.local_addr = some s → env.parseServerAddr s = some b →
      c'.local_addr = some b) := by
  have hl := (resolveConfig_fields h).2.1
  refine ⟨?_, ?_⟩
  · intro hnone
    rcases hl with ⟨_, heq⟩ | ⟨s, b, hsome, _, _⟩
    · exact heq
    · rw [hnone] at hsome
      cases hsome
  · intro s b hsome hparse
    rcases hl with ⟨hnone, _⟩ | ⟨s2, b2, hsome2, hparse2, heq⟩
    · rw [hnone] at hsome
      cases hsome
    · rw [hsome] at hsome2
      injection hsome2 with hss
      subst hss
      rw [hparse] at hparse2
      injection hparse2 with hbb
      rw [hbb]
      exact heq

/-- C6 witness: overriding the populated base `baseFull` with bind
address `127.0.0.1:1080` yields that value, obtained from
`c6_local_addr_precedence`. -/
theorem c6_local_addr_precedence_witness :
    resolveConfig envW { emptyMatches with local_addr := some "127.0.0.1:1080" }
      baseFull = .ok { baseFull with local_addr := some ⟨"127.0.0.1:1080"⟩ } ∧
    ({ baseFull with local_addr := some ⟨"127.0.0.1:1080"⟩ } : Config).local_addr =
      some ⟨"127.0.0.1:1080"⟩ :=
  ⟨rfl,
   (c6_local_addr_precedence envW
      { emptyMatches with local_addr := some "127.0.0.1:1080" } baseFull
      { baseFull with local_addr := some ⟨"127.0.0.1:1080"⟩ } rfl).2
      "127.0.0.1:1080" ⟨"127.0.0.1:1080"⟩ rfl rfl⟩

/-- C7 counterexample: a config-file load failure produces exactly one
logged diagnostic and no usage summary at all, and a validation
rejection prints its usage summary with `println!` (standard output),
which is a different event from printing it to standard error — so the
claim that every such failure prints a diagnostic plus a usage summary
to standard error is false. -/
theorem c7_counterexample :
    mainTunnel envW { emptyMatches with config := some "conf.json" } =
      ([OutEvent.logError "boom"], MainOutcome.earlyReturn) ∧
    mainTunnel envW emptyMatches =
      ([OutEvent.eprintln missingLocalAddressMsg, OutEvent.println envW.usage],
        MainOutcome.earlyReturn) ∧
    OutEvent.println envW.usage ≠ OutEvent.eprintln envW.usage :=
  ⟨rfl, rfl, by decide⟩

/-- C7 (amended): on a config-file load failure the program logs the
error and returns without printing a usage summary; on a merge-step
panic (e.g. a non-numeric descriptor limit) it panics with the
field-specific message and prints nothing; on a validation rejection it
prints the diagnostic to standard error and the usage summary to
standard output, then returns.  In every case the run phase is never
entered. -/
theorem c7_startup_failure_behavior (env : Env) (m : Matches) :
    (∀ p e, m.config = some p → env.loadConfig p = .error e →
      mainTunnel env m = ([OutEvent.logError e], MainOutcome.earlyReturn)) ∧
    (∀ e, m.config = none → resolveConfig env m env.newConfig = .error e →
      mainTunnel env m = ([], MainOutcome.panicked e)) ∧
    (∀ c, m.config = none → resolveConfig env m env.newConfig = .ok c →
      c.local_addr = none →
      mainTunnel env m =
        ([OutEvent.eprintln missingLocalAddressMsg, OutEvent.println env.usage],
          MainOutcome.earlyReturn)) ∧
    (∀ c, m.config = none → resolveConfig env m env.newConfig = .ok c →
      c.local_addr ≠ none → c.server = [] →
      mainTunnel env m =
        ([OutEvent.eprintln missingServersMsg, OutEvent.println env.usage],
          MainOutcome.earlyReturn)) := by
  refine ⟨?_, ?_, ?_, ?_⟩
  · intro p e hp he
    unfold mainTunnel
    rw [value_of_CONFIG]
    simp only [hp, he]
  · intro e hc hr
    unfold mainTunnel
    rw [value_of_CONFIG]
    simp only [hc]
    unfold mainResolved
    simp only [hr]
  · intro c hc hr hl
    unfold mainTunnel
    rw [value_of_CONFIG]
    simp only [hc]
    unfold mainResolved
    simp only [hr, validate_none_local hl]
  · intro c hc hr hl hs
    unfold mainTunnel
    rw [value_of_CONFIG]
    simp only [hc]
    unfold mainResolved
    simp only [hr, validate_empty_server hl hs]

/-- C7 witness: the three startup-failure behaviours and the
missing-servers rejection at concrete invocations, obtained from
`c7_startup_failure_behavior`. -/
theorem c7_startup_failure_behavior_witness :
    mainTunnel envW { emptyMatches with config := some "conf.json" } =
      ([OutEvent.logError "boom"], MainOutcome.earlyReturn) ∧
    mainTunnel envW { emptyMatches with nofile := some "abc" } =
      ([], MainOutcome.panicked "an unsigned integer for `nofile`") ∧
    mainTunnel envW emptyMatches =
      ([OutEvent.eprintln missingLocalAddressMsg, OutEvent.println "USAGE"],
        MainOutcome.earlyReturn) ∧
    mainTunnel envW { emptyMatches with local_addr := some "127.0.0.1:1080" } =
      ([OutEvent.eprintln missingServersMsg, OutEvent.println "USAGE"],
        MainOutcome.earlyReturn) :=
  ⟨(c7_startup_failure_behavior envW _).1 "conf.json" "boom" rfl rfl,
   (c7_startup_failure_behavior envW _).2.1 "an unsigned integer for `nofile`" rfl rfl,
   (c7_startup_failure_behavior envW _).2.2.1 envW.newConfig rfl rfl rfl,
   (c7_startup_failure_behavior envW _).2.2.2
     { envW.newConfig with local_addr := some ⟨"127.0.0.1:1080"⟩ }
     rfl rfl (by decide) rfl⟩

/-- C8 counterexample: a discrete bind-address override replaces a value
already established by the base configuration (`0.0.0.0:9` becomes
`127.0.0.1:1080`), so the claim that no merge step replaces a base value
other than mode is false. -/
theorem c8_counterexample :
    baseFull.local_addr = some ⟨"0.0.0.0:9"⟩ ∧
    resolveConfig envW { emptyMatches with local_addr := some "127.0.0.1:1080" }
      baseFull = .ok { baseFull with local_addr := some ⟨"127.0.0.1:1080"⟩ } ∧
    some (⟨"127.0.0.1:1080"⟩ : ServerAddr) ≠ some (⟨"0.0.0.0:9"⟩ : ServerAddr) :=
  ⟨rfl, rfl, by decide⟩

/-- C8 (amended): resolution is additive in the sense that no field is
ever cleared — servers are only appended to, option fields set by the
base stay set (though an override may replace their value), booleans are
only raised to true — with mode following its explicit escalation
rule. -/
theorem c8_additive_merge (env : Env) (m : Matches) (c0 c' : Config)
    (h : resolveConfig env m c0 = .ok c') :
    (∃ t, c'.server = c0.server ++ t) ∧
    (c0.local_addr.isSome = true → c'.local_addr.isSome = true) ∧
    (c0.forward.isSome = true → c'.forward.isSome = true) ∧
    (c0.no_delay = true → c'.no_delay = true) ∧
    (c0.nofile.isSome = true → c'.nofile.isSome = true) ∧
    (c0.ipv6_first = true → c'.ipv6_first = true) := by
  obtain ⟨hs, hl, hf, _, hd, hn, hi⟩ := resolveConfig_fields h
  refine ⟨hs, ?_, ?_, ?_, ?_, ?_⟩
  · intro hsome
    rcases hl with ⟨_, heq⟩ | ⟨s, b, _, _, heq⟩
    · rw [heq]; exact hsome
    · rw [heq]; rfl
  · intro hsome
    rcases hf with ⟨_, heq⟩ | ⟨s, b, _, _, heq⟩
    · rw [heq]; exact hsome
    · rw [heq]; rfl
  · intro htrue
    rw [hd, htrue]
    split <;> rfl
  · intro hsome
    rcases hn with ⟨_, heq⟩ | ⟨s, n, _, _, heq⟩
    · rw [heq]; exact hsome
    · rw [heq]; rfl
  · intro htrue
    rw [hi, htrue]
    split <;> rfl

/-- C8 witness: on the fully-populated base with a bind-address
override, the server list is extended by some suffix and the bind
address stays set, obtained from `c8_additive_merge`. -/
theorem c8_additive_merge_witness :
    (∃ t, ({ baseFull with local_addr := some ⟨"127.0.0.1:1080"⟩ } : Config).server =
      baseFull.server ++ t) ∧
    ({ baseFull with local_addr := some ⟨"127.0.0.1:1080"⟩ } : Config).local_addr.isSome =
      true :=
  ⟨(c8_additive_merge envW { emptyMatches with local_addr := some "127.0.0.1:1080" }
      baseFull { baseFull with local_addr := some ⟨"127.0.0.1:1080"⟩ } rfl).1,
   (c8_additive_merge envW { emptyMatches with local_addr := some "127.0.0.1:1080" }
      baseFull { baseFull with local_addr := some ⟨"127.0.0.1:1080"⟩ } rfl).2.1 rfl⟩

/-- C9: the scalar overrides.  Under a successful resolution, the
no-delay and IPv6-first flags set their fields to true when present and
leave the base value untouched when absent; a present descriptor-limit
flag parsed to `n` sets `nofile = some n`, an absent one leaves the base
value untouched. -/
theorem c9_scalar_overrides (env : Env) (m : Matches) (c0 c' : Config)
    (h : resolveConfig env m c0 = .ok c') :
    (m.no_delay = true → c'.no_delay = true) ∧
    (m.no_delay = false → c'.no_delay = c0.no_delay) ∧
    (m.ipv6_first = true → c'.ipv6_first = true) ∧
    (m.ipv6_first = false → c'.ipv6_first = c0.ipv6_first) ∧
    (m.nofile = none → c'.nofile = c0.nofile) ∧
    (∀ s n, m.nofile = some s → env.parseU64 s = some n → c'.nofile = some n) := by
  obtain ⟨_, _, _, _, hd, hn, hi⟩ := resolveConfig_fields h
  refine ⟨?_, ?_, ?_, ?_, ?_, ?_⟩
  · intro ht
    rw [hd, ht]
    rfl
  · intro hf
    rw [hd, hf]
    rfl
  · intro ht
    rw [hi, ht]
    rfl
  · intro hf
    rw [hi, hf]
    rfl
  · intro hnone
    rcases hn with ⟨_, heq⟩ | ⟨s, n, hsome, _, _⟩
    · exact heq
    · rw [hnone] at hsome
      cases hsome
  · intro s n hsome hparse
    rcases hn with ⟨hnone, _⟩ | ⟨s2, n2, hsome2, hparse2, heq⟩
    · rw [hnone] at hsome
      cases hsome
    · rw [hsome] at hsome2
      injection hsome2 with hss
      subst hss
      rw [hparse] at hparse2
      injection hparse2 with hnn
      rw [hnn]
      exact heq

/-- C9 witness: supplying the no-delay flag, the IPv6-first flag and
descriptor limit 1024 on the default base sets exactly those fields,
obtained from `c9_scalar_overrides`. -/
theorem c9_scalar_overrides_witness :
    cfgScalars.no_delay = true ∧ cfgScalars.ipv6_first = true ∧
    cfgScalars.nofile = some 1024 :=
  ⟨(c9_scalar_overrides envW mScalars envW.newConfig cfgScalars rfl).1 rfl,
   (c9_scalar_overrides envW mScalars envW.newConfig cfgScalars rfl).2.2.1 rfl,
   (c9_scalar_overrides envW mScalars envW.newConfig cfgScalars rfl).2.2.2.2.2
     "1024" 1024 rfl rfl⟩

end Tunnel
